import Mathlib

/-!
Formal model of the `MultiStepper` class (src/MultiStepper.cpp), an
Arduino-style driver for several 2-wire or 4-wire stepper motors.

Modelling conventions:
* C `int` values are modelled as unbounded `Int`; no property considered here
  exercises 16/32-bit wrap-around, and all concrete inputs are kept small.
* Each per-motor parallel array allocated by the constructor with
  `new int[number_of_motors]` is modelled as a total function `Int → Int`.
  `new int[n]` (without `()`) default-initializes, so the initial contents of
  every array are indeterminate; the model therefore takes the initial
  contents as explicit parameters (`InitMem`).  Indices are `Int` because the
  source can index the arrays with negative values (see `step`).
* `pinMode` calls made during registration configure hardware and touch no
  modelled state; they are omitted.  `digitalWrite` calls are observable and
  are collected as an ordered list of (pin, level) events.
* Several statements of the source are ill-formed C++ and have no defined
  value; each is modelled explicitly and flagged in the doc comment of the
  definition concerned, with the modelling choice made as charitable and as
  local as possible.
* `MultiStepper::setSpeed` (lines 140-143) is not modelled: its single
  statement `this->step_delay[i] = 60L * 1000L / this->number_of_steps /
  whatSpeed;` reads a variable `i` that is declared nowhere and uses the
  array `number_of_steps` itself (a pointer) as a divisor, so no reading of
  it yields the per-motor computation; there is no defined behaviour to
  embed.
-/

namespace MultiStepper

/-- Digital pin level, Arduino `LOW` / `HIGH`. -/
inductive Level where
  | low : Level
  | high : Level
deriving DecidableEq, Repr

/-- Arduino `LOW`. -/
def LOW : Level := Level.low

/-- Arduino `HIGH`. -/
def HIGH : Level := Level.high

/-- Array store: `upd a i v` models the assignment `a[i] = v`. -/
def upd (a : Int → Int) (i v : Int) : Int → Int :=
  fun j => if j = i then v else a j

/-- C `abs` on `int` (overflow at `INT_MIN` not modelled). -/
def cabs (n : Int) : Int := if n < 0 then -n else n

/-- One `MultiStepper` object: the data members set up by the constructor
(src lines 56-72).  `capacity` records the `number_of_motors` the arrays were
allocated for.  `step_number_off` is the displacement of the member pointer
`step_number` from its allocation base: line 191 (`this->step_number--;`)
decrements the member pointer itself rather than an element, so later element
accesses through that pointer are shifted; every access of the form
`step_number[k]` is modelled as `step_number (k + step_number_off)`. -/
structure MState where
  capacity : Int
  step_number : Int → Int
  speed : Int → Int
  direction : Int → Int
  last_step_time : Int → Int
  number_of_steps : Int → Int
  step_delay : Int → Int
  motor_pin_1 : Int → Int
  motor_pin_2 : Int → Int
  motor_pin_3 : Int → Int
  motor_pin_4 : Int → Int
  pin_count : Int → Int
  motor_count : Int
  step_number_off : Int

/-- Indeterminate initial contents of the eleven `new int[number_of_motors]`
allocations made by the constructor (`new int[n]` does not zero-initialize). -/
structure InitMem where
  step_number : Int → Int
  speed : Int → Int
  direction : Int → Int
  last_step_time : Int → Int
  number_of_steps : Int → Int
  step_delay : Int → Int
  motor_pin_1 : Int → Int
  motor_pin_2 : Int → Int
  motor_pin_3 : Int → Int
  motor_pin_4 : Int → Int
  pin_count : Int → Int

/-- Model of the constructor `MultiStepper::MultiStepper(int)` (lines 56-72):
allocates the per-motor arrays (their indeterminate contents supplied by
`mem`) and sets `motor_count = 0`.  No field of any block is initialized
here. -/
def construct (number_of_motors : Int) (mem : InitMem) : MState where
  capacity := number_of_motors
  step_number := mem.step_number
  speed := mem.speed
  direction := mem.direction
  last_step_time := mem.last_step_time
  number_of_steps := mem.number_of_steps
  step_delay := mem.step_delay
  motor_pin_1 := mem.motor_pin_1
  motor_pin_2 := mem.motor_pin_2
  motor_pin_3 := mem.motor_pin_3
  motor_pin_4 := mem.motor_pin_4
  pin_count := mem.pin_count
  motor_count := 0
  step_number_off := 0

/-- Model of the two-wire `MultiStepper::addMotor(int,int,int)` (lines
78-103).  Writes the block at index `i = motor_count` and increments
`motor_count`; there is no capacity check of any kind, so when
`motor_count` has reached `capacity` the writes land past the end of every
allocation (undefined behaviour in C++; the model's total-function arrays
absorb the write).  Note `step_delay[i]` is NOT written, and `speed[i] = 0`
is the rpm cache, not the step interval.  The two `pinMode` calls are
omitted (hardware configuration only). -/
def addMotor2 (s : MState) (number_of_steps motor_pin_1 motor_pin_2 : Int) :
    MState :=
  let i := s.motor_count
  { s with
    step_number := upd s.step_number (i + s.step_number_off) 0
    speed := upd s.speed i 0
    direction := upd s.direction i 0
    last_step_time := upd s.last_step_time i 0
    number_of_steps := upd s.number_of_steps i number_of_steps
    motor_pin_1 := upd s.motor_pin_1 i motor_pin_1
    motor_pin_2 := upd s.motor_pin_2 i motor_pin_2
    motor_pin_3 := upd s.motor_pin_3 i 0
    motor_pin_4 := upd s.motor_pin_4 i 0
    pin_count := upd s.pin_count i 2
    motor_count := s.motor_count + 1 }

/-- Model of the four-wire `MultiStepper::addMotor(int,int,int,int,int)`
(lines 109-134).  Same structure as the two-wire variant: no capacity check,
`step_delay[i]` not written, `pin_count[i] = 4`. -/
def addMotor4 (s : MState)
    (number_of_steps motor_pin_1 motor_pin_2 motor_pin_3 motor_pin_4 : Int) :
    MState :=
  let i := s.motor_count
  { s with
    step_number := upd s.step_number (i + s.step_number_off) 0
    speed := upd s.speed i 0
    direction := upd s.direction i 0
    last_step_time := upd s.last_step_time i 0
    number_of_steps := upd s.number_of_steps i number_of_steps
    motor_pin_1 := upd s.motor_pin_1 i motor_pin_1
    motor_pin_2 := upd s.motor_pin_2 i motor_pin_2
    motor_pin_3 := upd s.motor_pin_3 i motor_pin_3
    motor_pin_4 := upd s.motor_pin_4 i motor_pin_4
    pin_count := upd s.pin_count i 4
    motor_count := s.motor_count + 1 }

/-- The direction value `MultiStepper::step` assigns for a positive target
(`if (steps > 0) {this->direction[i] = 1;}`, line 169); `0` is assigned for a
negative target (line 170) and is also the value `addMotor` initializes
`direction[i]` to. -/
def forwardDirection : Int := 1

/-- Model of `MultiStepper::stepsLeft` (lines 146-153): the maximum of the
first `n` entries of the array and `0`.  The ranged `for` over the raw
`int steps_left[]` parameter carries no length in C++; `n` is the length of
the allocation the sole caller passes (`new int[this->motor_count]`),
traversed in index order exactly as the accumulation loop does. -/
def stepsLeft (a : Int → Int) : Nat → Int
  | 0 => 0
  | n + 1 =>
      let m := stepsLeft a n
      if a n > m then a n else m

/-- Model of `MultiStepper::stepMotor` (lines 202-252): the ordered list of
`digitalWrite(pin, level)` calls performed.  The two `if` blocks on
`pin_count` are independent (not `else if`), and each `switch` has cases
`0..3` only, with no `default`: any other phase value falls through and
writes nothing.  Line 185 (`this->step_number[motor} = 0;`) is in the
caller, not here. -/
def stepMotor (s : MState) (thisStep motor : Int) : List (Int × Level) :=
  (if s.pin_count motor = 2 then
    if thisStep = 0 then
      [(s.motor_pin_1 motor, LOW), (s.motor_pin_2 motor, HIGH)]
    else if thisStep = 1 then
      [(s.motor_pin_1 motor, HIGH), (s.motor_pin_2 motor, HIGH)]
    else if thisStep = 2 then
      [(s.motor_pin_1 motor, HIGH), (s.motor_pin_2 motor, LOW)]
    else if thisStep = 3 then
      [(s.motor_pin_1 motor, LOW), (s.motor_pin_2 motor, LOW)]
    else []
  else []) ++
  (if s.pin_count motor = 4 then
    if thisStep = 0 then
      [(s.motor_pin_1 motor, HIGH), (s.motor_pin_2 motor, LOW),
       (s.motor_pin_3 motor, HIGH), (s.motor_pin_4 motor, LOW)]
    else if thisStep = 1 then
      [(s.motor_pin_1 motor, LOW), (s.motor_pin_2 motor, HIGH),
       (s.motor_pin_3 motor, HIGH), (s.motor_pin_4 motor, LOW)]
    else if thisStep = 2 then
      [(s.motor_pin_1 motor, LOW), (s.motor_pin_2 motor, HIGH),
       (s.motor_pin_3 motor, LOW), (s.motor_pin_4 motor, HIGH)]
    else if thisStep = 3 then
      [(s.motor_pin_1 motor, HIGH), (s.motor_pin_2 motor, LOW),
       (s.motor_pin_3 motor, LOW), (s.motor_pin_4 motor, HIGH)]
    else []
  else [])

/-- Model of `MultiStepper::version` (lines 257-260). -/
def version : Int := 5

/-- Truth values assigned to the two ill-formed comparisons inside
`MultiStepper::step`, indexed by the `millis()`-call counter at the moment
the comparison runs (each occurrence gets a fresh index):
* `dirTest` stands for `if (this->direction == 1)` (line 182), which
  compares the member pointer `direction` with the integer 1 — ill-formed
  C++ with no value;
* `eqTest` stands for `if (this->step_number == this->number_of_steps[motor])`
  (line 184), which compares the member pointer `step_number` with an `int` —
  likewise ill-formed.
Results proved for every `IllFormed` hold under any resolution of these two
comparisons. -/
structure IllFormed where
  dirTest : Nat → Bool
  eqTest : Nat → Bool

/-- State threaded through the `while` loop of `MultiStepper::step`:
the object `s`, the contents `sl` of the local `steps_left` allocation,
the number `k` of `millis()` calls made so far (the clock is a function of
this counter), and the `digitalWrite` events emitted so far. -/
structure LoopSt where
  s : MState
  sl : Int → Int
  k : Nat
  writes : List (Int × Level)

/-- The initialization loop of `MultiStepper::step` (lines 165-174): for the
`i`-th entry `steps` of `steps_to_move`, sets `steps_left[i] = abs(steps)`,
then `direction[i] = 1` if `steps > 0`, `direction[i] = 0` if `steps < 0`
(direction untouched when `steps == 0`).  The local `max_steps_left` that the
loop also accumulates (line 172, without `abs`) is never read afterwards and
is omitted as dead.  Returns the final `steps_left` contents and object. -/
def stepInit : List Int → Int → (Int → Int) → MState → (Int → Int) × MState
  | [], _, sl, s => (sl, s)
  | steps :: rest, i, sl, s =>
      let sl1 := upd sl i (cabs steps)
      let d1 := if steps > 0 then upd s.direction i 1 else s.direction
      let d2 := if steps < 0 then upd d1 i 0 else d1
      stepInit rest (i + 1) sl1 { s with direction := d2 }

/-- One iteration of the inner `for (int motor : steps_to_move)` body of
`MultiStepper::step` (lines 179-194) for one value `motor`.  Note `motor`
ranges over the VALUES of `steps_to_move`, so the requested step counts are
used as array indices.  The timing gate compares `millis() - last_step_time
[motor]` with `step_delay[motor]` (modelled over `Int`; the C++ unsigned
wrap-around is immaterial to the properties proved, which hold for every
clock).  On a passed gate: `last_step_time[motor] = millis()` (a second
`millis()` call); then the ill-formed direction test (`IllFormed.dirTest`);
in its true branch `step_number[motor]++` followed by the ill-formed
equality test (`IllFormed.eqTest`) guarding `step_number[motor] = 0` (line
185, written `step_number[motor} = 0;` — brace typo repaired to a bracket);
in its false branch, `step_number[motor] = number_of_steps[motor]` when the
entry is 0, then `this->step_number--` decrements the member pointer
(modelled by `step_number_off`); finally `stepMotor(step_number[motor] % 4,
motor)` with C truncated `%` (`Int.tmod`).  Nothing here writes to
`steps_left`. -/
def stepOne (clock : Nat → Int) (e : IllFormed) (st : LoopSt) (motor : Int) :
    LoopSt :=
  if clock st.k - st.s.last_step_time motor ≥ st.s.step_delay motor then
    let s1 := { st.s with
      last_step_time := upd st.s.last_step_time motor (clock (st.k + 1)) }
    let s2 :=
      if e.dirTest st.k then
        let j := motor + s1.step_number_off
        let sInc := { s1 with
          step_number := upd s1.step_number j (s1.step_number j + 1) }
        if e.eqTest st.k then
          { sInc with step_number := upd sInc.step_number j 0 }
        else sInc
      else
        let j := motor + s1.step_number_off
        let sZ :=
          if s1.step_number j = 0 then
            { s1 with
              step_number := upd s1.step_number j (s1.number_of_steps motor) }
          else s1
        { sZ with step_number_off := sZ.step_number_off - 1 }
    let ws := stepMotor s2
      (Int.tmod (s2.step_number (motor + s2.step_number_off)) 4) motor
    { s := s2, sl := st.sl, k := st.k + 2, writes := st.writes ++ ws }
  else
    { st with k := st.k + 1 }

/-- One pass of the inner `for (int motor : steps_to_move)` loop (lines
178-195) over all values of `steps_to_move`. -/
def stepScan (clock : Nat → Int) (e : IllFormed) :
    List Int → LoopSt → LoopSt
  | [], st => st
  | motor :: rest, st => stepScan clock e rest (stepOne clock e st motor)

/-- The `while (stepsLeft(steps_left) > 0)` loop (lines 177-196), with fuel:
`none` means the loop was still running after `fuel` iterations.  The
traversal bound of `stepsLeft` is the size `motor_count` of the `steps_left`
allocation. -/
def stepLoop (clock : Nat → Int) (e : IllFormed) (stm : List Int) :
    Nat → LoopSt → Option LoopSt
  | 0, st =>
      if stepsLeft st.sl st.s.motor_count.toNat > 0 then none else some st
  | fuel + 1, st =>
      if stepsLeft st.sl st.s.motor_count.toNat > 0 then
        stepLoop clock e stm fuel (stepScan clock e stm st)
      else some st

/-- Model of `MultiStepper::step` (lines 159-197), the blocking MoveBy.
`steps_to_move` is the caller's array as a list (the declared parameter
`int steps_to_move[]` is a raw pointer; the ranged `for` over it is
ill-formed C++, modelled as traversing the caller's elements in order).
Line 161 declares the local as `int steps_left = new int[this->motor_count]`
— ill-formed (`int` initialized from `int*`), repaired to the evident
`int*`; `slAlloc` is the indeterminate initial content of that allocation.
`clock` gives the value of the n-th `millis()` call.  The function has no
length check, no validation and no error path of any kind; `some` is normal
return, `none` means the loop had not finished after `fuel` iterations. -/
def step (s : MState) (steps_to_move : List Int) (slAlloc : Int → Int)
    (clock : Nat → Int) (e : IllFormed) (fuel : Nat) : Option LoopSt :=
  let p := stepInit steps_to_move 0 slAlloc s
  stepLoop clock e steps_to_move fuel
    { s := p.2, sl := p.1, k := 0, writes := [] }

/-- Zero allocator contents: every array happens to start all-zero. -/
def memZ : InitMem where
  step_number := fun _ => 0
  speed := fun _ => 0
  direction := fun _ => 0
  last_step_time := fun _ => 0
  number_of_steps := fun _ => 0
  step_delay := fun _ => 0
  motor_pin_1 := fun _ => 0
  motor_pin_2 := fun _ => 0
  motor_pin_3 := fun _ => 0
  motor_pin_4 := fun _ => 0
  pin_count := fun _ => 0

/-- Allocator contents whose `step_delay` allocation happens to hold 7
everywhere (a perfectly possible indeterminate content of `new int[n]`). -/
def mem7 : InitMem := { memZ with step_delay := fun _ => 7 }

/-- A bank of capacity 1 holding one two-wire motor (200 steps, pins 2, 3). -/
def sTwo : MState := addMotor2 (construct 1 memZ) 200 2 3

/-- A bank of capacity 1 holding one four-wire motor (200 steps, pins
4, 5, 6, 7). -/
def sFour : MState := addMotor4 (construct 1 memZ) 200 4 5 6 7

/-- A hypothetical state whose recorded pin count for every motor is 3
(neither 2 nor 4). -/
def sThree : MState := { sTwo with pin_count := fun _ => 3 }

theorem stepOne_sl (clock : Nat → Int) (e : IllFormed) (st : LoopSt)
    (motor : Int) : (stepOne clock e st motor).sl = st.sl := by
  unfold stepOne
  split <;> rfl

theorem stepOne_motor_count (clock : Nat → Int) (e : IllFormed) (st : LoopSt)
    (motor : Int) : (stepOne clock e st motor).s.motor_count =
      st.s.motor_count := by
  unfold stepOne
  split
  · dsimp only
    split
    · split <;> rfl
    · split <;> rfl
  · rfl

theorem stepScan_sl (clock : Nat → Int) (e : IllFormed) (stm : List Int)
    (st : LoopSt) : (stepScan clock e stm st).sl = st.sl := by
  induction stm generalizing st with
  | nil => rfl
  | cons m rest ih =>
      rw [stepScan, ih, stepOne_sl]

theorem stepScan_motor_count (clock : Nat → Int) (e : IllFormed)
    (stm : List Int) (st : LoopSt) :
    (stepScan clock e stm st).s.motor_count = st.s.motor_count := by
  induction stm generalizing st with
  | nil => rfl
  | cons m rest ih =>
      rw [stepScan, ih, stepOne_motor_count]

/-- Nothing inside the `while` body of `MultiStepper::step` ever writes to
the `steps_left` allocation, so once `stepsLeft(steps_left) > 0` holds it
holds forever and the loop cannot exit, whatever the clock returns and
however the ill-formed comparisons are resolved. -/
theorem stepLoop_none (clock : Nat → Int) (e : IllFormed) (stm : List Int)
    (fuel : Nat) (st : LoopSt)
    (h : stepsLeft st.sl st.s.motor_count.toNat > 0) :
    stepLoop clock e stm fuel st = none := by
  induction fuel generalizing st with
  | zero =>
      unfold stepLoop
      rw [if_pos h]
  | succ f ih =>
      unfold stepLoop
      rw [if_pos h]
      exact ih _ (by rw [stepScan_sl, stepScan_motor_count]; exact h)

theorem stepsLeft_nonneg (a : Int → Int) (n : Nat) : 0 ≤ stepsLeft a n := by
  induction n with
  | zero => exact le_refl 0
  | succ n ih =>
      unfold stepsLeft
      dsimp only
      split <;> omega

theorem stepsLeft_pos (a : Int → Int) (n i : Nat) (hin : i < n)
    (ha : 0 < a i) : 0 < stepsLeft a n := by
  induction n with
  | zero => exact absurd hin (Nat.not_lt_zero i)
  | succ n ih =>
      unfold stepsLeft
      dsimp only
      rcases Nat.lt_succ_iff_lt_or_eq.mp hin with h | h
      · have hm := ih h
        split <;> omega
      · rw [h] at ha
        have hm := stepsLeft_nonneg a n
        split <;> omega

/-- A capacity-2 bank holding two two-wire motors (pins 2,3 and 4,5). -/
def sTwoMotors : MState :=
  addMotor2 (addMotor2 (construct 2 memZ) 200 2 3) 200 4 5

/-- A concrete resolution of the two ill-formed comparisons: both always
true. -/
def illT : IllFormed := ⟨fun _ => true, fun _ => true⟩

/-- C1: the claimed final positions `(initialStepIndex ± k) mod S` are never
reached, because `MultiStepper::step` never completes: on the spec's own
scenario (two 200-step motors, targets `[4, -2]`) the call returns for no
allocator contents, no clock, no resolution of the ill-formed comparisons
and no iteration bound, since `steps_left` is never decremented (and the
body moreover indexes the motor state by the requested step counts 4 and -2
rather than by motor indices 0 and 1). -/
theorem c1_moveByNeverCompletes (mem : InitMem) (slAlloc : Int → Int)
    (clock : Nat → Int) (e : IllFormed) (fuel : Nat) :
    step (addMotor2 (addMotor2 (construct 2 mem) 200 2 3) 200 4 5) [4, -2]
      slAlloc clock e fuel = none := by
  unfold step
  dsimp only [stepInit, addMotor2, construct]
  apply stepLoop_none
  refine stepsLeft_pos _ _ 0 (by norm_num) ?_
  norm_num [upd, cabs]

/-- C3: the remaining-steps counters are never decremented (contradicting
the comment on line 176 of the source), so `stepsLeft(steps_left)` stays
positive and the `while` loop never exits: with one registered motor and
target `[1]`, `MultiStepper::step` fails to return for every allocator
content, clock, resolution of the ill-formed comparisons and iteration
bound. -/
theorem c3_moveByNeverReturns (mem : InitMem) (slAlloc : Int → Int)
    (clock : Nat → Int) (e : IllFormed) (fuel : Nat) :
    step (addMotor2 (construct 1 mem) 200 2 3) [1] slAlloc clock e fuel
      = none := by
  unfold step
  dsimp only [stepInit, addMotor2, construct]
  apply stepLoop_none
  refine stepsLeft_pos _ _ 0 (by norm_num) ?_
  norm_num [upd, cabs]

/-- C4: `addMotor` has no capacity check: on a bank constructed for one
motor that already holds one, a further registration (either wiring)
increments `motor_count` to 2, exceeding the capacity 1 (the block writes
themselves land past the end of the allocations — undefined behaviour in
the C++). -/
theorem c4_registrationBeyondCapacity :
    (addMotor4 sTwo 200 4 5 6 7).motor_count = 2 ∧
    (addMotor2 sTwo 200 4 5).motor_count = 2 ∧
    (addMotor4 sTwo 200 4 5 6 7).capacity = 1 := by
  refine ⟨rfl, rfl, rfl⟩

/-- C5: `MultiStepper::step` performs no length validation and has no error
path at all: called on a two-motor bank with the one-entry list `[0]`
(length mismatch), it simply returns normally (here with no pin writes),
rather than failing with any `ArgumentCountMismatch`. -/
theorem c5_mismatchedLengthNoError :
    Option.map LoopSt.writes
      (step sTwoMotors [0] (fun _ => 0) (fun _ => 0) illT 1) = some [] := by
  rfl

/-- C7: for every motor recorded as 2-wire, `stepMotor` emits for phases
0, 1, 2, 3 exactly the pin-level pairs (Low,High), (High,High), (High,Low),
(Low,Low), writing `motor_pin_1` then `motor_pin_2`. -/
theorem c7_twoWirePattern (s : MState) (motor : Int)
    (h : s.pin_count motor = 2) :
    stepMotor s 0 motor =
      [(s.motor_pin_1 motor, LOW), (s.motor_pin_2 motor, HIGH)] ∧
    stepMotor s 1 motor =
      [(s.motor_pin_1 motor, HIGH), (s.motor_pin_2 motor, HIGH)] ∧
    stepMotor s 2 motor =
      [(s.motor_pin_1 motor, HIGH), (s.motor_pin_2 motor, LOW)] ∧
    stepMotor s 3 motor =
      [(s.motor_pin_1 motor, LOW), (s.motor_pin_2 motor, LOW)] := by
  refine ⟨?_, ?_, ?_, ?_⟩ <;> norm_num [stepMotor, h]

/-- C7 witness: the two-wire pattern theorem instantiated on a concrete
bank holding one 2-wire motor on pins 2 and 3. -/
theorem c7_twoWirePattern_witness :
    stepMotor sTwo 0 0 =
      [(sTwo.motor_pin_1 0, LOW), (sTwo.motor_pin_2 0, HIGH)] ∧
    stepMotor sTwo 1 0 =
      [(sTwo.motor_pin_1 0, HIGH), (sTwo.motor_pin_2 0, HIGH)] ∧
    stepMotor sTwo 2 0 =
      [(sTwo.motor_pin_1 0, HIGH), (sTwo.motor_pin_2 0, LOW)] ∧
    stepMotor sTwo 3 0 =
      [(sTwo.motor_pin_1 0, LOW), (sTwo.motor_pin_2 0, LOW)] :=
  c7_twoWirePattern sTwo 0 rfl

/-- C8: for every motor recorded as 4-wire, `stepMotor` emits for phases
0, 1, 2, 3 exactly the pin-level quadruples (High,Low,High,Low),
(Low,High,High,Low), (Low,High,Low,High), (High,Low,Low,High). -/
theorem c8_fourWirePattern (s : MState) (motor : Int)
    (h : s.pin_count motor = 4) :
    stepMotor s 0 motor =
      [(s.motor_pin_1 motor, HIGH), (s.motor_pin_2 motor, LOW),
       (s.motor_pin_3 motor, HIGH), (s.motor_pin_4 motor, LOW)] ∧
    stepMotor s 1 motor =
      [(s.motor_pin_1 motor, LOW), (s.motor_pin_2 motor, HIGH),
       (s.motor_pin_3 motor, HIGH), (s.motor_pin_4 motor, LOW)] ∧
    stepMotor s 2 motor =
      [(s.motor_pin_1 motor, LOW), (s.motor_pin_2 motor, HIGH),
       (s.motor_pin_3 motor, LOW), (s.motor_pin_4 motor, HIGH)] ∧
    stepMotor s 3 motor =
      [(s.motor_pin_1 motor, HIGH), (s.motor_pin_2 motor, LOW),
       (s.motor_pin_3 motor, LOW), (s.motor_pin_4 motor, HIGH)] := by
  refine ⟨?_, ?_, ?_, ?_⟩ <;> norm_num [stepMotor, h]

/-- C8 witness: the four-wire pattern theorem instantiated on a concrete
bank holding one 4-wire motor on pins 4, 5, 6, 7. -/
theorem c8_fourWirePattern_witness :
    stepMotor sFour 0 0 =
      [(sFour.motor_pin_1 0, HIGH), (sFour.motor_pin_2 0, LOW),
       (sFour.motor_pin_3 0, HIGH), (sFour.motor_pin_4 0, LOW)] ∧
    stepMotor sFour 1 0 =
      [(sFour.motor_pin_1 0, LOW), (sFour.motor_pin_2 0, HIGH),
       (sFour.motor_pin_3 0, HIGH), (sFour.motor_pin_4 0, LOW)] ∧
    stepMotor sFour 2 0 =
      [(sFour.motor_pin_1 0, LOW), (sFour.motor_pin_2 0, HIGH),
       (sFour.motor_pin_3 0, LOW), (sFour.motor_pin_4 0, HIGH)] ∧
    stepMotor sFour 3 0 =
      [(sFour.motor_pin_1 0, HIGH), (sFour.motor_pin_2 0, LOW),
       (sFour.motor_pin_3 0, LOW), (sFour.motor_pin_4 0, HIGH)] :=
  c8_fourWirePattern sFour 0 rfl

/-- C9 counterexample: on a fresh capacity-1 bank whose `step_delay`
allocation happens to hold 7, registering a two-wire motor leaves
`direction[0] = 0` — not the value 1 that `step` assigns for a positive
(Forward) target — and leaves `step_delay[0] = 7`, not 0: registration
initializes neither `direction` to Forward nor `stepIntervalMs` to 0 as the
claim states. -/
theorem c9_initCounterexample :
    (addMotor2 (construct 1 mem7) 200 2 3).direction 0 ≠ forwardDirection ∧
    (addMotor2 (construct 1 mem7) 200 2 3).step_delay 0 ≠ 0 := by
  refine ⟨by decide, by decide⟩

/-- C9 (amended): every successful registration (2-wire or 4-wire) writes
the block at the next free index `motor_count` with `step_number = 0`,
`speed = 0` (the rpm cache), `direction = 0` — the value `step` assigns for
a NEGATIVE target, i.e. Backward, not Forward — and `last_step_time = 0`,
increments `motor_count`, and leaves the whole `step_delay` array untouched
(so the new block's step interval keeps its indeterminate allocation
content rather than being set to 0). -/
theorem c9_registrationInit (s : MState) (ns p1 p2 p3 p4 : Int) :
    ((addMotor2 s ns p1 p2).step_number
        (s.motor_count + s.step_number_off) = 0 ∧
     (addMotor2 s ns p1 p2).speed s.motor_count = 0 ∧
     (addMotor2 s ns p1 p2).direction s.motor_count = 0 ∧
     (0 : Int) ≠ forwardDirection ∧
     (addMotor2 s ns p1 p2).last_step_time s.motor_count = 0 ∧
     (addMotor2 s ns p1 p2).step_delay = s.step_delay ∧
     (addMotor2 s ns p1 p2).motor_count = s.motor_count + 1) ∧
    ((addMotor4 s ns p1 p2 p3 p4).step_number
        (s.motor_count + s.step_number_off) = 0 ∧
     (addMotor4 s ns p1 p2 p3 p4).speed s.motor_count = 0 ∧
     (addMotor4 s ns p1 p2 p3 p4).direction s.motor_count = 0 ∧
     (addMotor4 s ns p1 p2 p3 p4).last_step_time s.motor_count = 0 ∧
     (addMotor4 s ns p1 p2 p3 p4).step_delay = s.step_delay ∧
     (addMotor4 s ns p1 p2 p3 p4).motor_count = s.motor_count + 1) := by
  refine ⟨⟨?_, ?_, ?_, by decide, ?_, rfl, rfl⟩, ?_, ?_, ?_, ?_, rfl, rfl⟩ <;>
    simp [addMotor2, addMotor4, upd]

/-- C10: `stepMotor` writes nothing at all when the phase is outside
0..3 (the `switch` statements have no `default` branch), and likewise when
the recorded pin count is neither 2 nor 4 (the two `if` blocks are the only
writers). -/
theorem c10_noWriteOutsideTables (s : MState) (thisStep motor : Int) :
    (thisStep ≠ 0 → thisStep ≠ 1 → thisStep ≠ 2 → thisStep ≠ 3 →
      stepMotor s thisStep motor = []) ∧
    (s.pin_count motor ≠ 2 → s.pin_count motor ≠ 4 →
      stepMotor s thisStep motor = []) := by
  constructor
  · intro h0 h1 h2 h3
    simp [stepMotor, h0, h1, h2, h3]
  · intro h2 h4
    simp [stepMotor, h2, h4]

/-- C10 witness: phase 5 on a 2-wire motor writes nothing; phase 1 on a
motor whose recorded pin count is 3 writes nothing. -/
theorem c10_noWriteOutsideTables_witness :
    stepMotor sTwo 5 0 = [] ∧ stepMotor sThree 1 0 = [] :=
  ⟨(c10_noWriteOutsideTables sTwo 5 0).1 (by decide) (by decide) (by decide)
      (by decide),
   (c10_noWriteOutsideTables sThree 1 0).2 (by decide) (by decide)⟩

end MultiStepper
